import Mathlib

/-!
Verification of the pipeline-service exporter collector
(`src/collector/collector.go`) against its specification.

The Go file defines the `PipelineServiceCollector` with two
`prometheus.GaugeVec` fields, the constructor `NewCollector`, `Describe`,
the exported `Collect` (mutex + error log wrapper) and the inner `collect`
(fetch the pipeline-run list, compute two durations per item, set both
gauges, stream both gauge collections to the channel).

The helper functions `getPipelineRuns`, `calculateScheduledDuration` and
`calculateCompletedDuration` are called by `collect` but are not part of
the repository's source tree; they are modelled from the specification
(marked `Modelled from the spec:` below).  Timestamps are modelled in
integral seconds (`Int`); gauge values are likewise `Int` seconds.
The mutex is not modelled: collection passes are embedded as pure state
transformers, so each pass is atomic by construction.
-/

/-- A pipeline-run object.  `Name` and `UID` are the label values used by
the collector (`pipelineRun.Name`, `string(pipelineRun.UID)` in the Go
source).  The three lifecycle timestamps are modelled from the spec's data
model (§3): creation time, scheduled/started time and completion time,
each optional, in integral seconds. -/
structure PipelineRun where
  Name : String
  UID : String
  creationTime : Option Int
  scheduledTime : Option Int
  completionTime : Option Int
deriving DecidableEq, Repr

/-- Failure modes of the duration calculators, from the spec's error
taxonomy (§7): a required timestamp is absent, or the later timestamp
precedes the earlier one. -/
inductive CalcError where
  | MissingTimestamp
  | InvalidOrdering
deriving DecidableEq, Repr

/-- Modelled from the spec: `calculateScheduledDuration` is called by
`collect` but its body is not under the repository's source tree.  Per
§4.1, it returns the elapsed seconds between the run's creation time and
its scheduled/started time, fails with `MissingTimestamp` if either
timestamp is absent, and with `InvalidOrdering` if the scheduled time
precedes the creation time. -/
def calculateScheduledDuration (run : PipelineRun) : Except CalcError Int :=
  match run.creationTime, run.scheduledTime with
  | some c, some s => if s < c then .error .InvalidOrdering else .ok (s - c)
  | _, _ => .error .MissingTimestamp

/-- Modelled from the spec: `calculateCompletedDuration` is called by
`collect` but its body is not under the repository's source tree.  Per
§4.1 it has the same shape as `calculateScheduledDuration`, substituting
the completion timestamp; the start reference is the creation time (the
spec's §9 open question is resolved here in favour of creation time). -/
def calculateCompletedDuration (run : PipelineRun) : Except CalcError Int :=
  match run.creationTime, run.completionTime with
  | some c, some t => if t < c then .error .InvalidOrdering else .ok (t - c)
  | _, _ => .error .MissingTimestamp

/-- The numeric value a duration computation hands to the caller in the Go
two-value return convention: the computed seconds on success, the zero
value on error (the Go caller reads the value unconditionally even when
`err` is non-nil). -/
def durValue : Except CalcError Int → Int
  | .ok v => v
  | .error _ => 0

/-- Descriptor of a gauge metric family: its name and label names, as
passed to `prometheus.NewGaugeVec` in `NewCollector`. -/
structure GaugeDesc where
  name : String
  labelNames : List String
deriving DecidableEq, Repr

/-- One metric sample streamed to the output channel: the family name,
the label-tuple `(name, uid)` and the current value. -/
structure Sample where
  metric : String
  labels : String × String
  value : Int
deriving DecidableEq, Repr

/-- Model of a `prometheus.GaugeVec`: a descriptor plus a mapping from
label-tuples to the last-set value.  The library stores a hash map with
unspecified iteration order; here the entry list holds the
most-recently-updated tuple first, with at most one entry per tuple. -/
structure GaugeVec where
  desc : GaugeDesc
  entries : List ((String × String) × Int)
deriving DecidableEq, Repr

/-- The `WithLabelValues(...).Set(v)` operation: upsert, last write wins
for the label-tuple. -/
def GaugeVec.set (g : GaugeVec) (labels : String × String) (v : Int) : GaugeVec :=
  ⟨g.desc, (labels, v) :: g.entries.filter (fun e => decide (e.1 ≠ labels))⟩

/-- Current value held for a label-tuple, if any. -/
def GaugeVec.lookup (g : GaugeVec) (labels : String × String) : Option Int :=
  (g.entries.find? (fun e => decide (e.1 = labels))).map Prod.snd

/-- The `GaugeVec.Collect(ch)` operation: stream every currently-held
(label-tuple, value) pair as a sample of this family. -/
def GaugeVec.collectSamples (g : GaugeVec) : List Sample :=
  g.entries.map (fun e => ⟨g.desc.name, e.1, e.2⟩)

/-- The `PipelineServiceCollector` struct: a logger of arbitrary type `L`
and the two gauge collections.  The `sync.Mutex` field is not modelled
(passes are atomic state transformers here). -/
structure PipelineServiceCollector (L : Type) where
  logger : L
  durationScheduled : GaugeVec
  durationCompleted : GaugeVec
deriving DecidableEq, Repr

/-- `NewCollector`: builds the two gauge families with their fixed names
and the label names `name`, `uid`, and returns the collector together
with a `nil` error. -/
def NewCollector {L : Type} (logger : L) : PipelineServiceCollector L × Option String :=
  (⟨logger,
    ⟨⟨"pipelinerun_duration_scheduled_seconds", ["name", "uid"]⟩, []⟩,
    ⟨⟨"pipelinerun_duration_completed_seconds", ["name", "uid"]⟩, []⟩⟩,
   none)

/-- `Describe`: forwards the descriptors of the two gauge collections, in
source order. -/
def Describe {L : Type} (c : PipelineServiceCollector L) : List GaugeDesc :=
  [c.durationScheduled.desc, c.durationCompleted.desc]

/-- Log records emitted by the collector, one constructor per distinct
error log call site in the Go source. -/
inductive LogEvent where
  /-- message: Error while fetching PipelineRuns -/
  | fetchError
  /-- message: Error while calculating the scheduled time of a PipelineRun -/
  | scheduledCalcError
  /-- message: Error while calculating the completion time of a PipelineRun -/
  | completedCalcError
  /-- message: error collecting pipeline-service metrics -/
  | collectError
deriving DecidableEq, Repr

/-- Which of the two duration computations an attempt belongs to. -/
inductive Kind where
  | scheduled
  | completed
deriving DecidableEq, Repr

/-- The error logs produced by one loop iteration of `collect`: one
record per failed duration computation for this item, scheduled first. -/
def itemLogs (run : PipelineRun) : List LogEvent :=
  (match calculateScheduledDuration run with
    | .error _ => [LogEvent.scheduledCalcError]
    | .ok _ => []) ++
  (match calculateCompletedDuration run with
    | .error _ => [LogEvent.completedCalcError]
    | .ok _ => [])

/-- The gauge mutations of one loop iteration of `collect`: both gauges
are set for the item's label-tuple, unconditionally, with the values the
two computations returned (zero alongside an error). -/
def setItem {L : Type} (c : PipelineServiceCollector L) (run : PipelineRun) :
    PipelineServiceCollector L :=
  { c with
    durationScheduled :=
      c.durationScheduled.set (run.Name, run.UID) (durValue (calculateScheduledDuration run))
    durationCompleted :=
      c.durationCompleted.set (run.Name, run.UID) (durValue (calculateCompletedDuration run)) }

/-- Accumulated effect of the loop in `collect`: collector state, log
records so far and the duration computations attempted so far. -/
structure PassAcc (L : Type) where
  state : PipelineServiceCollector L
  logs : List LogEvent
  attempts : List (PipelineRun × Kind)
deriving Repr

/-- One iteration of the loop in `collect`: attempt both duration
computations for the item (recording both attempts and a log record per
failure), then set both gauges for the item. -/
def collectStep {L : Type} (acc : PassAcc L) (run : PipelineRun) : PassAcc L :=
  ⟨setItem acc.state run,
   acc.logs ++ itemLogs run,
   acc.attempts ++ [(run, Kind.scheduled), (run, Kind.completed)]⟩

/-- The `for _, pipelineRun := range prList.Items` loop of `collect`. -/
def collectLoop {L : Type} (c : PipelineServiceCollector L) (items : List PipelineRun) :
    PassAcc L :=
  items.foldl collectStep ⟨c, [], []⟩

/-- Outcome of one collection pass: final collector state, the samples
streamed to the channel, the log records, the attempted computations, and
the error value `collect` returns to `Collect`. -/
structure PassResult (L : Type) where
  state : PipelineServiceCollector L
  samples : List Sample
  logs : List LogEvent
  attempts : List (PipelineRun × Kind)
  err : Option String
deriving Repr

/-- The inner `collect`: `getPipelineRuns` is not under the repository's
source tree, so its outcome is the explicit `src` argument (modelled from
the spec's `PipelineRunSource.List()` contract).  On a listing error:
log, return the error, stream nothing.  Otherwise run the loop, then
stream both gauge collections (scheduled first) to the channel and return
`nil`. -/
def collect {L : Type} (c : PipelineServiceCollector L)
    (src : Except String (List PipelineRun)) : PassResult L :=
  match src with
  | .error e => ⟨c, [], [LogEvent.fetchError], [], some e⟩
  | .ok items =>
    let acc := collectLoop c items
    ⟨acc.state,
     acc.state.durationScheduled.collectSamples ++ acc.state.durationCompleted.collectSamples,
     acc.logs, acc.attempts, none⟩

/-- The exported `Collect`: runs `collect` under the mutex and, when it
returned an error, logs one more record; nothing is returned to the
caller. -/
def Collect {L : Type} (c : PipelineServiceCollector L)
    (src : Except String (List PipelineRun)) : PassResult L :=
  let r := collect c src
  match r.err with
  | some _ => ⟨r.state, r.samples, r.logs ++ [LogEvent.collectError], r.attempts, r.err⟩
  | none => r

/-! ## Helper lemmas -/

/-- Setting a label-tuple makes `lookup` of that tuple return the value. -/
theorem GaugeVec.lookup_set_self (g : GaugeVec) (l : String × String) (v : Int) :
    (g.set l v).lookup l = some v := by
  simp [GaugeVec.set, GaugeVec.lookup, List.find?]

/-- The loop over a list ending in `run` is the loop over the prefix
followed by one iteration on `run`. -/
theorem collectLoop_append_single {L : Type} (c : PipelineServiceCollector L)
    (pre : List PipelineRun) (run : PipelineRun) :
    collectLoop c (pre ++ [run]) = collectStep (collectLoop c pre) run := by
  simp [collectLoop, List.foldl_append]

/-- The attempts accumulated by the loop: the prior attempts followed by
one scheduled and one completed attempt per item, in list order,
independent of any computation's success or failure. -/
theorem foldl_collectStep_attempts {L : Type} (items : List PipelineRun) (acc : PassAcc L) :
    (items.foldl collectStep acc).attempts
      = acc.attempts ++ items.flatMap (fun r => [(r, Kind.scheduled), (r, Kind.completed)]) := by
  induction items generalizing acc with
  | nil => simp
  | cons r rs ih => simp [collectStep, ih]

/-! ## Claim theorems -/

/-- C1 counterexample: a pass over one item with valid timestamps and one
item missing its completion timestamp does NOT skip the completed gauge
for the second item: the completed gauge IS set for the second item (with
the zero value), contradicting the claim that the gauge of the failed
kind is not set for that item and that the completed gauge is set only
for the first item. -/
theorem collect_missing_completion_counterexample :
    (collect ((NewCollector ()).1) (Except.ok
        [⟨"a", "1", some 0, some 5, some 20⟩,
         ⟨"b", "2", some 0, some 3, none⟩])).state.durationCompleted.lookup ("b", "2")
      = some 0 ∧
    (collect ((NewCollector ()).1) (Except.ok
        [⟨"a", "1", some 0, some 5, some 20⟩,
         ⟨"b", "2", some 0, some 3, none⟩])).state.durationCompleted.lookup ("b", "2")
      ≠ none := by
  decide

/-- C1 (amended): when an item's completed-duration calculation fails,
the pass still sets the completed gauge for that item, with the zero
value the failed computation returned; the scheduled gauge for the same
item is likewise attempted and set with the value its computation
returned.  (Stated for the last item of the list, whose writes are not
overwritten by later iterations.) -/
theorem collect_error_still_sets_gauge {L : Type} (c : PipelineServiceCollector L)
    (pre : List PipelineRun) (run : PipelineRun) (e : CalcError)
    (h : calculateCompletedDuration run = Except.error e) :
    (collect c (Except.ok (pre ++ [run]))).state.durationCompleted.lookup
        (run.Name, run.UID) = some 0 ∧
    (collect c (Except.ok (pre ++ [run]))).state.durationScheduled.lookup
        (run.Name, run.UID) = some (durValue (calculateScheduledDuration run)) := by
  constructor
  · simp [collect, collectLoop_append_single, collectStep, setItem, h, durValue,
      GaugeVec.lookup_set_self]
  · simp [collect, collectLoop_append_single, collectStep, setItem,
      GaugeVec.lookup_set_self]

/-- C1 witness: the amended theorem applied to the concrete two-item
pass; the second item misses its completion timestamp, yet both its
gauges are set (completed with 0, scheduled with 3). -/
theorem collect_error_still_sets_gauge_witness :
    (collect ((NewCollector ()).1) (Except.ok
        ([⟨"a", "1", some 0, some 5, some 20⟩] ++
         [⟨"b", "2", some 0, some 3, none⟩]))).state.durationCompleted.lookup ("b", "2")
      = some 0 ∧
    (collect ((NewCollector ()).1) (Except.ok
        ([⟨"a", "1", some 0, some 5, some 20⟩] ++
         [⟨"b", "2", some 0, some 3, none⟩]))).state.durationScheduled.lookup ("b", "2")
      = some 3 :=
  collect_error_still_sets_gauge ((NewCollector ()).1)
    [⟨"a", "1", some 0, some 5, some 20⟩] ⟨"b", "2", some 0, some 3, none⟩
    CalcError.MissingTimestamp rfl

/-- C2 counterexample: after a successful pass over one valid item, a
pass whose source listing fails emits a DIFFERENT sample snapshot (the
empty one) rather than the previous pass's snapshot, and produces two
error log records (fetch error plus wrapper error), not one. -/
theorem Collect_source_failure_counterexample :
    (Collect (Collect ((NewCollector ()).1)
          (Except.ok [⟨"a", "1", some 0, some 5, some 20⟩])).state
        (Except.error "boom")).samples
      ≠ (Collect ((NewCollector ()).1)
          (Except.ok [⟨"a", "1", some 0, some 5, some 20⟩])).samples ∧
    (Collect (Collect ((NewCollector ()).1)
          (Except.ok [⟨"a", "1", some 0, some 5, some 20⟩])).state
        (Except.error "boom")).logs.length = 2 := by
  decide

/-- C2 (amended): if the source listing fails, the pass emits no samples
at all to the sink, leaves the stored gauge state exactly as the
preceding passes left it (no sample in the state lost, none fabricated),
and produces exactly two error log records: one from `collect` and one
from `Collect`. -/
theorem Collect_source_failure {L : Type} (c : PipelineServiceCollector L) (e : String) :
    (Collect c (Except.error e)).samples = [] ∧
    (Collect c (Except.error e)).state = c ∧
    (Collect c (Except.error e)).logs = [LogEvent.fetchError, LogEvent.collectError] :=
  ⟨rfl, rfl, rfl⟩

/-- C3: if the source listing fails, `collect` returns early without
emitting any samples, and both gauge collections — every previously set
label-tuple and value — are left exactly unchanged. -/
theorem collect_source_failure_state_unchanged {L : Type}
    (c : PipelineServiceCollector L) (e : String) :
    (collect c (Except.error e)).samples = [] ∧
    (collect c (Except.error e)).state.durationScheduled = c.durationScheduled ∧
    (collect c (Except.error e)).state.durationCompleted = c.durationCompleted :=
  ⟨rfl, rfl, rfl⟩

/-- C4: with both creation and scheduled timestamps present and scheduled
not earlier than creation, `calculateScheduledDuration` returns the
elapsed seconds (scheduled minus creation) without error, and the value
is non-negative. -/
theorem calculateScheduledDuration_valid (run : PipelineRun) (c s : Int)
    (hc : run.creationTime = some c) (hs : run.scheduledTime = some s) (h : c ≤ s) :
    calculateScheduledDuration run = Except.ok (s - c) ∧ 0 ≤ s - c := by
  constructor
  · simp [calculateScheduledDuration, hc, hs, not_lt.mpr h]
  · omega

/-- C4 witness: a run created at second 2 and scheduled at second 5 gets
scheduled duration 3. -/
theorem calculateScheduledDuration_valid_witness :
    calculateScheduledDuration ⟨"a", "1", some 2, some 5, none⟩ = Except.ok (5 - 2) ∧
      (0 : Int) ≤ 5 - 2 :=
  calculateScheduledDuration_valid ⟨"a", "1", some 2, some 5, none⟩ 2 5 rfl rfl
    (by decide)

/-- C5: a run whose scheduled timestamp is absent makes
`calculateScheduledDuration` fail with `MissingTimestamp`; the function
is total, so no panic is possible. -/
theorem calculateScheduledDuration_missing (run : PipelineRun)
    (h : run.scheduledTime = none) :
    calculateScheduledDuration run = Except.error CalcError.MissingTimestamp := by
  cases hc : run.creationTime <;> simp [calculateScheduledDuration, hc, h]

/-- C5 witness: a concrete run with no scheduled timestamp fails with
`MissingTimestamp`. -/
theorem calculateScheduledDuration_missing_witness :
    calculateScheduledDuration ⟨"a", "1", some 2, none, some 9⟩
      = Except.error CalcError.MissingTimestamp :=
  calculateScheduledDuration_missing ⟨"a", "1", some 2, none, some 9⟩ rfl

/-- C6: the collector built by `NewCollector` exposes exactly two gauge
families, named `pipelinerun_duration_scheduled_seconds` and
`pipelinerun_duration_completed_seconds`, each with label set
`(name, uid)`, and `Describe` forwards exactly these two descriptors. -/
theorem Describe_two_families {L : Type} (l : L) :
    Describe (NewCollector l).1 =
      [⟨"pipelinerun_duration_scheduled_seconds", ["name", "uid"]⟩,
       ⟨"pipelinerun_duration_completed_seconds", ["name", "uid"]⟩] := rfl

/-- C7: in a pass whose source listing succeeds, the loop attempts
exactly one scheduled-duration and one completed-duration computation per
item of the returned list, in order, whatever the outcomes of any of the
computations — so one item's failure never suppresses another item's
attempts. -/
theorem collect_attempts_each_item {L : Type} (c : PipelineServiceCollector L)
    (items : List PipelineRun) :
    (collect c (Except.ok items)).attempts
      = items.flatMap (fun r => [(r, Kind.scheduled), (r, Kind.completed)]) := by
  simpa [collect, collectLoop] using foldl_collectStep_attempts items
    (⟨c, [], []⟩ : PassAcc L)

/-- C9: the error `collect` hands back to `Collect` is exactly the source
listing's error: `none` for every successfully listed item list, however
many per-item computations fail, and the listing's error otherwise; the
pass itself is a total function, so `Collect` always returns to its
caller. -/
theorem collect_err_only_from_source {L : Type} (c : PipelineServiceCollector L)
    (src : Except String (List PipelineRun)) :
    (collect c src).err = (match src with
      | .ok _ => none
      | .error e => some e) := by
  cases src <;> rfl

/-- C10: `NewCollector` never fails: for every logger it returns the
constructed collector holding that logger, paired with a `nil` error. -/
theorem NewCollector_never_fails {L : Type} (l : L) :
    (NewCollector l).2 = none ∧ (NewCollector l).1.logger = l := ⟨rfl, rfl⟩
